import Mathlib

/-!
Verification of the conversation-list reconciler in
`src/cometchat-uikit-react-native/src/CometChatConversations.tsx`.

The event handlers of that component operate on a `CometChatList` holding
JavaScript objects by reference: `getListItem` returns the object itself, and
some handlers call mutating setters on it while others first go through
`CommonUtils.clone`.  To make that distinction observable we embed the list as
a small heap: records live in an association list keyed by an abstract
reference (`Ref`), and the list's display order is a list of references.
`CommonUtils.clone` becomes allocation of a fresh reference holding a copy of
the value; a mutating setter becomes an update of the heap at an existing
reference.

Asynchronous SDK operations (`CometChat.CometChatHelper.getConversationFromMessage`,
`CometChat.deleteConversation`) are external; each handler takes their outcome
as an explicit `Option`/`Bool` argument.  JavaScript exceptions (property
access on `undefined`) are modelled with `Except String`.
-/

namespace CometChatConversations

/-- A message as far as the handlers inspect it: `getId`, `getSender().getUid()`,
`getCategory`, `getReceiverType`, `getParentMessageId` (0 = absent),
`willUpdateConversation`, the `incrementUnreadCount` metadata flag,
`readAt` / `deliveredAt` receipts, the ephemeral `typing` annotation the typing
handler stores on the last-message object, and `getConversationId`. -/
structure Msg where
  id : Nat
  conversationId : String
  senderUid : String
  category : String
  receiverType : String
  parentMessageId : Nat
  willUpdateConversation : Bool
  hasMetadata : Bool
  metadataIncrementUnreadCount : Bool
  readAt : Option Nat
  deliveredAt : Option Nat
  typing : Option String
deriving DecidableEq

/-- Snapshot of a user as the opposing party of a conversation. -/
structure UserSnap where
  uid : String
  status : String
  blockedByMe : Bool
  hasBlockedMe : Bool
deriving DecidableEq

/-- Snapshot of a group as the opposing party of a conversation.
`scope` is the logged-in user's scope in the group (`getScope`). -/
structure GroupSnap where
  guid : String
  scope : Option String
deriving DecidableEq

/-- The opposing party `conversation.getConversationWith()`: a user or a group snapshot. -/
inductive ConvWith where
  | user (u : UserSnap)
  | group (g : GroupSnap)
deriving DecidableEq

/-- A conversation record (`CometChat.Conversation`) as inspected by the
handlers. -/
structure Conversation where
  conversationId : String
  conversationType : String
  convWith : ConvWith
  lastMessage : Option Msg
  unreadCount : Nat
deriving DecidableEq

/-- The four toggles of `CometChatUIKit.getConversationUpdateSettings()`. -/
structure UpdateSettings where
  shouldUpdateOnMessageReplies : Bool
  shouldUpdateOnCustomMessages : Bool
  shouldUpdateOnGroupActions : Bool
  shouldUpdateOnCallActivities : Bool
deriving DecidableEq

/-- An abstract JavaScript object reference. -/
abbrev Ref := Nat

/-- The state of the `CometChatList` holding the conversations: a heap of
records addressed by reference, the display order as a list of references
(index 0 = front), and the next fresh reference. -/
structure ListState where
  heap : List (Ref × Conversation)
  order : List Ref
  nextRef : Ref
deriving DecidableEq

/-- Dereference `r` in a heap. -/
def lookupRef (h : List (Ref × Conversation)) (r : Ref) : Option Conversation :=
  match h with
  | [] => none
  | (n, c) :: t => if r = n then some c else lookupRef t r

/-- The `conversationId` of the record a reference points to
(the `listItemKey` of the list). -/
def convIdAt (s : ListState) (r : Ref) : Option String :=
  (lookupRef s.heap r).map (·.conversationId)

/-- Lookup `getListItem(id)`: the reference of the displayed record whose
`conversationId` is `id`. -/
def getListItem (s : ListState) (id : String) : Option Ref :=
  s.order.find? (fun r =>
    match lookupRef s.heap r with
    | some c => c.conversationId == id
    | none => false)

/-- Update a heap at one reference. -/
def mutateHeap (h : List (Ref × Conversation)) (r : Ref) (f : Conversation → Conversation) :
    List (Ref × Conversation) :=
  match h with
  | [] => []
  | (n, c) :: t =>
    if n = r then (n, f c) :: mutateHeap t r f else (n, c) :: mutateHeap t r f

/-- A mutating setter called on the object `r`: updates the heap in place. -/
def mutateRef (s : ListState) (r : Ref) (f : Conversation → Conversation) : ListState :=
  { s with heap := mutateHeap s.heap r f }

/-- Cloning via `CommonUtils.clone`: allocate a fresh object holding the value `c`. -/
def allocClone (s : ListState) (c : Conversation) : ListState × Ref :=
  ({ heap := (s.nextRef, c) :: s.heap, order := s.order, nextRef := s.nextRef + 1 },
   s.nextRef)

/-- Replacement via `updateList(obj)`: replace the displayed entry with the same
`conversationId` by the object `r2`; the order of ids is unchanged. -/
def updateList (s : ListState) (r2 : Ref) : ListState :=
  { s with order := s.order.map (fun r => if convIdAt s r = convIdAt s r2 then r2 else r) }

/-- Clone a value into a fresh object and hand it to `updateList`
(the `clone` + `updateList` pattern used by the copy-on-write handlers). -/
def updateListVal (s : ListState) (c : Conversation) : ListState :=
  let p := allocClone s c
  updateList p.1 p.2

/-- Reordering via `updateAndMoveToFirst(obj)`: remove the displayed entries carrying the same
`conversationId` and put the object `r2` at index 0. -/
def updateAndMoveToFirst (s : ListState) (r2 : Ref) : ListState :=
  { s with order := r2 :: s.order.filter (fun r => !(decide (convIdAt s r = convIdAt s r2))) }

/-- Insertion via `addItemToList(record, 0)`: allocate the record and insert it at the front. -/
def addItemToList (s : ListState) (c : Conversation) : ListState :=
  { heap := (s.nextRef, c) :: s.heap,
    order := s.nextRef :: s.order,
    nextRef := s.nextRef + 1 }

/-- Removal via `removeItemFromList(id)`: drop the displayed entries whose record has
`conversationId = id`. -/
def removeItemFromList (s : ListState) (id : String) : ListState :=
  { s with order := s.order.filter (fun r => !(decide (convIdAt s r = some id))) }

/-- The displayed records, in display order. -/
def records (s : ListState) : List Conversation :=
  s.order.filterMap (lookupRef s.heap)

/-- The displayed conversation ids, in display order. -/
def recordIds (s : ListState) : List String :=
  s.order.filterMap (convIdAt s)

/-- Well-formedness: every allocated object and every displayed reference
predates the next fresh reference. -/
def WF (s : ListState) : Prop :=
  (∀ p ∈ s.heap, p.1 < s.nextRef) ∧ (∀ r ∈ s.order, r < s.nextRef)

/-! ## Update Policy (`shouldUpdateLastMessageAndUnreadCount`) -/

/-- Transliteration of `shouldUpdateLastMessageAndUnreadCount`:
reject thread replies when the replies toggle is off; reject custom messages
that neither opt in nor carry the metadata flag when the custom toggle is off;
for action-category messages with a group receiver return the group-actions
toggle; reject call-category messages when the calls toggle is off; otherwise
accept. -/
def shouldUpdateLastMessageAndUnreadCount (settings : UpdateSettings) (message : Msg) : Bool :=
  if message.parentMessageId != 0 && !settings.shouldUpdateOnMessageReplies then
    false
  else if message.category == "custom"
      && !message.willUpdateConversation
      && !(message.hasMetadata && message.metadataIncrementUnreadCount)
      && !settings.shouldUpdateOnCustomMessages then
    false
  else if message.category == "action" && message.receiverType == "group" then
    settings.shouldUpdateOnGroupActions
  else if message.category == "call" && !settings.shouldUpdateOnCallActivities then
    false
  else
    true

/-! ## `updateLastMessage` (new-message handler)

`derive` and `derive2` are the outcomes of the outer and inner
`getConversationFromMessage` calls (`none` = the promise rejected).  The two
extra booleans of the result record whether `onError` was invoked and whether
the failure was merely written to the console (`console.log("Error", err)`). -/

/-- Transliteration of `updateLastMessage`.  On the existing-conversation path
the handler calls `setLastMessage` and `setUnreadMessageCount` on the object
returned by `getListItem`, clones it afterwards, and hands the clone to
`updateAndMoveToFirst`. -/
def updateLastMessage (loggedInUid : String) (newMessage : Msg)
    (derive derive2 : Option Conversation) (s : ListState) :
    ListState × Bool × Bool :=
  match derive with
  | none => (s, false, true)
  | some conversation =>
    match getListItem s conversation.conversationId with
    | none =>
      match derive2 with
      | none => (s, true, false)
      | some newConversation =>
        let nc :=
          if newConversation.lastMessage.map (·.senderUid) ≠ some loggedInUid then
            { newConversation with unreadCount := 1 }
          else newConversation
        (addItemToList s nc, false, false)
    | some r =>
      let s1 := mutateRef s r (fun c => { c with lastMessage := some newMessage })
      let s2 :=
        if newMessage.senderUid ≠ loggedInUid then
          mutateRef s1 r (fun c => { c with unreadCount := c.unreadCount + 1 })
        else s1
      match lookupRef s2.heap r with
      | none => (s2, false, false)
      | some oldConversation =>
        let p := allocClone s2 oldConversation
        (updateAndMoveToFirst p.1 p.2, false, false)

/-! ## `groupHandler` -/

/-- The optional `otherDetails` argument of `groupHandler`. -/
structure GroupActionDetails where
  action : Option String
  actionOnUid : Option String
  group : Option GroupSnap
  newScope : Option String
  oldScope : Option String
deriving DecidableEq

/-- The details of a `groupHandler(message)` call with no second argument: every field `undefined`. -/
def emptyDetails : GroupActionDetails :=
  { action := none, actionOnUid := none, group := none, newScope := none, oldScope := none }

/-- The body of `groupHandler` for a conversation found in the list (`r`
points to it, `c` is its current value).  The kicked/banned/left-self branch
removes the record from the list and returns without touching anything else;
the other branch is gated by the group-actions toggle and calls the setters
`setLastMessage` / `setConversationWith` on the object itself before
`updateList`. -/
def groupHandlerExisting (loggedInUid : String) (toggle : Bool) (message : Msg)
    (d0 : GroupActionDetails) (s : ListState) (r : Ref) (c : Conversation) : ListState :=
  let d :=
    if d0.action = some "scopeChange" ∧ d0.actionOnUid ≠ some loggedInUid then
      { d0 with oldScope := none, newScope := none }
    else d0
  let oldScopeLocal : Option String :=
    match d.oldScope with
    | some sc => some sc
    | none =>
      match c.convWith with
      | ConvWith.group g => g.scope
      | ConvWith.user _ => none
  if (d.action = some "kicked" ∨ d.action = some "banned" ∨ d.action = some "left")
      ∧ d.actionOnUid = some loggedInUid then
    removeItemFromList s message.conversationId
  else if !toggle then
    s
  else
    let s1 := mutateRef s r (fun cc => { cc with lastMessage := some message })
    match d.group with
    | some g =>
      let g2 :=
        if g.scope = none then
          { g with scope := match d.newScope with
                            | some ns => some ns
                            | none => oldScopeLocal }
        else g
      let s2 := mutateRef s1 r (fun cc => { cc with convWith := ConvWith.group g2 })
      updateList s2 r
    | none => updateList s1 r

/-- Transliteration of `groupHandler`.  `toggle` is
`shouldUpdateOnGroupActions()`; `derive` is the outcome of
`getConversationFromMessage` on the missing-conversation path (its promise
chain has no rejection handler, so a failed derivation does nothing).  The
recursive `groupHandler(message)` call after the re-check is inlined as a call
to the existing-conversation body with empty details. -/
def groupHandler (loggedInUid : String) (toggle : Bool) (message : Msg)
    (d : GroupActionDetails) (derive : Option Conversation) (s : ListState) : ListState :=
  match getListItem s message.conversationId with
  | some r =>
    match lookupRef s.heap r with
    | none => s
    | some c => groupHandlerExisting loggedInUid toggle message d s r c
  | none =>
    match derive with
    | none => s
    | some newConversation =>
      match getListItem s message.conversationId with
      | some r =>
        match lookupRef s.heap r with
        | none => s
        | some c => groupHandlerExisting loggedInUid toggle message emptyDetails s r c
      | none => addItemToList s newConversation

/-- One group-action event as processed by the component: the SDK group
listener only calls `groupHandler`; the selection state is never consulted or
modified on this path. -/
def groupEventStep (loggedInUid : String) (toggle : Bool) (message : Msg)
    (d : GroupActionDetails) (derive : Option Conversation)
    (s : ListState) (sel : List String) : ListState × List String :=
  (groupHandler loggedInUid toggle message d derive s, sel)

/-! ## Selection and the delete flow -/

/-- Transliteration of `removeItemFromSelectionList`: when selecting, remove
the first selection entry with the given conversation id (`findIndex` +
`splice(index, 1)`). -/
def removeItemFromSelectionList (selecting : Bool) (sel : List String) (id : String) :
    List String :=
  if selecting then sel.erase id else sel

/-- Transliteration of `removeConversation`.  The handler first destructures
the record returned by `getListItem(id)` (throwing on `undefined`), then calls
the external `CometChat.deleteConversation`; `deleteSucceeds` is its outcome.
Only on success does it emit `ccConversationDeleted` (the final `Bool`),
remove the record from the list and remove the id from the selection; on
failure the rejection is logged and nothing changes. -/
def removeConversation (deleteSucceeds selecting : Bool) (id : String)
    (s : ListState) (sel : List String) :
    Except String (ListState × List String × Bool) :=
  match getListItem s id with
  | none => Except.error "TypeError"
  | some _ =>
    if deleteSucceeds then
      Except.ok (removeItemFromList s id, removeItemFromSelectionList selecting sel id, true)
    else
      Except.ok (s, sel, false)

/-! ## `updateUnreadMessageCount` (used by every call-event handler) -/

/-- Transliteration of `updateUnreadMessageCount`: when the conversation is
displayed the handler calls `setUnreadMessageCount` on the object obtained
from `getListItem` and returns that very object (`Sum.inl r`); otherwise it
sets the derived conversation's unread count to 1 and returns the derived
value (`Sum.inr`). -/
def updateUnreadMessageCount (conversation : Conversation) (s : ListState) :
    ListState × (Ref ⊕ Conversation) :=
  match getListItem s conversation.conversationId with
  | none => (s, Sum.inr { conversation with unreadCount := 1 })
  | some r =>
    (mutateRef s r (fun c => { c with unreadCount := c.unreadCount + 1 }), Sum.inl r)

/-! ## `userEventHandler` (presence) -/

/-- Transliteration of `userEventHandler`.  The conversation id is tried in
both orderings of `(uid, loggedInUid)`.  The code reads
`item.getConversationWith()` before its `if (item)` guard, so a presence event
with no matching conversation throws a `TypeError`. -/
def userEventHandler (loggedInUid : String) (ev : UserSnap) (s : ListState) :
    Except String ListState :=
  let item? := (getListItem s (ev.uid ++ "_user_" ++ loggedInUid)).orElse
    (fun _ => getListItem s (loggedInUid ++ "_user_" ++ ev.uid))
  match item? with
  | none => Except.error "TypeError"
  | some r =>
    match lookupRef s.heap r with
    | none => Except.ok s
    | some c =>
      let blockedByMe := match c.convWith with
                         | ConvWith.user u => u.blockedByMe
                         | ConvWith.group _ => false
      let hasBlockedMe := match c.convWith with
                          | ConvWith.user u => u.hasBlockedMe
                          | ConvWith.group _ => false
      if blockedByMe || hasBlockedMe then
        Except.ok s
      else
        Except.ok (updateListVal s { c with convWith := ConvWith.user ev })

/-! ## Typing events -/

/-- A typing indicator as inspected by the handler. -/
structure TypingIndicator where
  senderUid : String
  senderName : String
  receiverId : String
  receiverType : String
deriving DecidableEq

/-- The predicate of the linear scan in
`getConversationRefFromTypingIndicator`. -/
def matchesTypingIndicator (ti : TypingIndicator) (c : Conversation) : Bool :=
  (ti.receiverType == "user" && c.conversationType == "user"
    && (match c.convWith with
        | ConvWith.user u =>
          u.uid == ti.senderUid && !(u.blockedByMe || u.hasBlockedMe)
        | ConvWith.group _ => false))
  || (ti.receiverType == "group" && c.conversationType == "group"
    && (match c.convWith with
        | ConvWith.group g => g.guid == ti.receiverId
        | ConvWith.user _ => false))

/-- Transliteration of `getConversationRefFromTypingIndicator`: a linear
`find` over the displayed records. -/
def getConversationRefFromTypingIndicator (ti : TypingIndicator) (s : ListState) : Option Ref :=
  s.order.find? (fun r =>
    match lookupRef s.heap r with
    | some c => matchesTypingIndicator ti c
    | none => false)

/-- The string stored in the ephemeral `typing` annotation. -/
def typingText (ti : TypingIndicator) : String :=
  if ti.receiverType == "group" then ti.senderName ++ " is typing" else "is typing"

/-- The per-record transformation of `typingEventHandler`: when typing starts
and the annotation is absent, store it on the last-message object; in every
other case delete it.  Both the assignment and the `delete` throw when the
record has no last message. -/
def applyTypingToConversation (ti : TypingIndicator) (isTyping : Bool) (c : Conversation) :
    Except String Conversation :=
  match c.lastMessage with
  | none => Except.error "TypeError"
  | some lm =>
    if isTyping && (match lm.typing with | some _ => false | none => true) then
      Except.ok { c with lastMessage := some { lm with typing := some (typingText ti) } }
    else
      Except.ok { c with lastMessage := some { lm with typing := none } }

/-- Transliteration of `typingEventHandler`: scan for the matching record,
clone it, toggle the annotation on the clone, and hand the clone to
`updateList`. -/
def typingEventHandler (ti : TypingIndicator) (isTyping : Bool) (s : ListState) :
    Except String ListState :=
  match getConversationRefFromTypingIndicator ti s with
  | none => Except.ok s
  | some r =>
    match lookupRef s.heap r with
    | none => Except.ok s
    | some c =>
      match applyTypingToConversation ti isTyping c with
      | Except.error e => Except.error e
      | Except.ok c2 => Except.ok (updateListVal s c2)

/-! ## Receipts (`updateMessageReceipt`) -/

/-- A delivery/read receipt as inspected by the handler. -/
structure Receipt where
  senderUid : String
  receiver : String
  receiverType : String
  receiptType : String
  messageId : Nat
  readAt : Option Nat
  deliveredAt : Option Nat
deriving DecidableEq

/-- The resolution step of `updateMessageReceipt`: user receipts try both
orderings of the direct-conversation id; group receipts resolve
`group_<guid>` only for the two all-member aggregate receipt types. -/
def resolveReceipt (receipt : Receipt) (s : ListState) : Option Ref :=
  if receipt.receiverType == "user" then
    (getListItem s (receipt.receiver ++ "_user_" ++ receipt.senderUid)).orElse
      (fun _ => getListItem s (receipt.senderUid ++ "_user_" ++ receipt.receiver))
  else if receipt.receiptType == "DELIVERED_TO_ALL" || receipt.receiptType == "READ_BY_ALL" then
    getListItem s ("group_" ++ receipt.receiver)
  else
    none

/-- The two timestamp writes of `updateMessageReceipt`: set `readAt` when the
receipt carries one, then set `deliveredAt` when the receipt carries one. -/
def applyReceiptTimestamps (receipt : Receipt) (lm : Msg) : Msg :=
  let lm1 :=
    match receipt.readAt with
    | some t => { lm with readAt := some t }
    | none => lm
  match receipt.deliveredAt with
  | some t => { lm1 with deliveredAt := some t }
  | none => lm1

/-- Transliteration of `updateMessageReceipt`.  Group conversations whose last
message was not sent by the logged-in user are skipped; otherwise, when the
receipt's message id equals the last message's id, the handler clones the
record, sets `readAt` / `deliveredAt` from the receipt when present, and hands
the clone to `updateList` (no reorder).  `getLastMessage()` is dereferenced
without a guard, hence the `Except`. -/
def updateMessageReceipt (loggedInUid : String) (receipt : Receipt) (s : ListState) :
    Except String ListState :=
  match resolveReceipt receipt s with
  | none => Except.ok s
  | some r =>
    match lookupRef s.heap r with
    | none => Except.ok s
    | some c =>
      if c.conversationType == "group" then
        match c.lastMessage with
        | none => Except.error "TypeError"
        | some lm =>
          if lm.senderUid ≠ loggedInUid then Except.ok s
          else if lm.id = receipt.messageId then
            Except.ok (updateListVal s
              { c with lastMessage := some (applyReceiptTimestamps receipt lm) })
          else Except.ok s
      else
        match c.lastMessage with
        | none => Except.error "TypeError"
        | some lm =>
          if lm.id = receipt.messageId then
            Except.ok (updateListVal s
              { c with lastMessage := some (applyReceiptTimestamps receipt lm) })
          else Except.ok s

/-! ## Mount/teardown lifecycle -/

/-- The listener registrations and the member-added debounce timer owned by
one mounted component instance. -/
structure ComponentState where
  sdkUserListener : Bool
  sdkCallListener : Bool
  sdkGroupListener : Bool
  uiConversationListener : Bool
  uiMessageListener : Bool
  uiGroupListener : Bool
  uiUserListener : Bool
  uiCallListener : Bool
  memberAddedDebounceTimer : Option Nat
deriving DecidableEq

/-- The registrations performed by the mount effect: three SDK listeners
(user, call, group) and five UI-event-handler listeners (conversation,
message, group, user, call). -/
def mountRegistrations (cs : ComponentState) : ComponentState :=
  { cs with
    sdkUserListener := true, sdkCallListener := true, sdkGroupListener := true,
    uiConversationListener := true, uiMessageListener := true,
    uiGroupListener := true, uiUserListener := true, uiCallListener := true }

/-- Debouncing in `onMemberAddedToGroup`: clear any pending debounce timer and schedule a
new one (the timer handle is the scheduled work). -/
def onMemberAddedToGroupDebounce (t : Nat) (cs : ComponentState) : ComponentState :=
  { cs with memberAddedDebounceTimer := some t }

/-- Transliteration of the `useEffect` cleanup: it removes the SDK user, call
and group listeners and the UI message, conversation, group and user
listeners.  It does not remove the UI call listener and does not clear the
member-added debounce timer. -/
def teardownCleanup (cs : ComponentState) : ComponentState :=
  { cs with
    sdkUserListener := false, sdkCallListener := false, sdkGroupListener := false,
    uiMessageListener := false, uiConversationListener := false,
    uiGroupListener := false, uiUserListener := false }

/-! ## Store lemmas -/

theorem lookupRef_nil (r : Ref) : lookupRef [] r = none := rfl

theorem lookupRef_cons (n : Ref) (c : Conversation) (t : List (Ref × Conversation)) (x : Ref) :
    lookupRef ((n, c) :: t) x = if x = n then some c else lookupRef t x := rfl

/-- Dereferencing after `mutateHeap`: the mutated reference yields the
transformed value, every other reference is unchanged. -/
theorem lookupRef_mutate (h : List (Ref × Conversation)) (r x : Ref)
    (f : Conversation → Conversation) :
    lookupRef (mutateHeap h r f) x =
      if x = r then (lookupRef h r).map f else lookupRef h x := by
  induction h with
  | nil => simp [lookupRef, mutateHeap]
  | cons p t ih =>
    obtain ⟨n, c⟩ := p
    by_cases hn : n = r
    · subst hn
      by_cases hx : x = n
      · subst hx
        simp [lookupRef, mutateHeap]
      · simp [lookupRef, mutateHeap, hx, ih]
    · have hrn : ¬ r = n := fun h => hn h.symm
      by_cases hx : x = n
      · subst hx
        have hxr : ¬ x = r := hn
        simp [lookupRef, mutateHeap, hn, hxr]
      · simp [lookupRef, mutateHeap, hn, hx, hrn, ih]

/-- A reference at least as large as every allocated one dangles. -/
theorem lookupRef_fresh (h : List (Ref × Conversation)) (n : Ref)
    (hf : ∀ p ∈ h, p.1 < n) : lookupRef h n = none := by
  induction h with
  | nil => rfl
  | cons p t ih =>
    obtain ⟨k, c⟩ := p
    have hk : k < n := hf (k, c) (List.mem_cons_self _ _)
    have hne : ¬ n = k := Nat.ne_of_gt hk
    rw [lookupRef_cons, if_neg hne]
    exact ih (fun q hq => hf q (List.mem_cons_of_mem _ hq))

/-- What a successful `getListItem` means: the reference is displayed and its
record carries the requested conversation id. -/
theorem getListItem_spec (s : ListState) (id : String) (r : Ref)
    (h : getListItem s id = some r) :
    r ∈ s.order ∧ ∃ c, lookupRef s.heap r = some c ∧ c.conversationId = id := by
  unfold getListItem at h
  have hmem := List.mem_of_find?_eq_some h
  have hp := List.find?_some h
  refine ⟨hmem, ?_⟩
  cases hl : lookupRef s.heap r with
  | none => rw [hl] at hp; simp at hp
  | some c =>
    rw [hl] at hp
    simp only [beq_iff_eq] at hp
    exact ⟨c, rfl, hp⟩

/-- Removal is complete: `removeItemFromList` removes every displayed occurrence of the id. -/
theorem not_mem_recordIds_removeItemFromList (s : ListState) (id : String) :
    id ∉ recordIds (removeItemFromList s id) := by
  intro hmem
  unfold recordIds removeItemFromList at hmem
  simp only [List.mem_filterMap] at hmem
  obtain ⟨r, hr, hcid⟩ := hmem
  simp only [List.mem_filter] at hr
  have hne : ¬ (convIdAt s r = some id) := by simpa using hr.2
  exact hne (by simpa [convIdAt] using hcid)

/-- Replacing the displayed entry with a freshly allocated clone carrying the
same conversation id leaves the displayed id sequence unchanged. -/
theorem filterMap_update_key (hp : List (Ref × Conversation)) (n : Ref) (c : Conversation)
    (L : List Ref) (hL : ∀ r ∈ L, r ≠ n) :
    (L.map (fun r =>
        if (lookupRef ((n, c) :: hp) r).map (·.conversationId)
            = (lookupRef ((n, c) :: hp) n).map (·.conversationId)
        then n else r)).filterMap
        (fun r => (lookupRef ((n, c) :: hp) r).map (·.conversationId))
      = L.filterMap (fun r => (lookupRef hp r).map (·.conversationId)) := by
  have hgn : (lookupRef ((n, c) :: hp) n).map (·.conversationId) = some c.conversationId := by
    rw [lookupRef_cons, if_pos rfl]
    rfl
  induction L with
  | nil => rfl
  | cons a t ih =>
    have ha : ¬ a = n := hL a (List.mem_cons_self a t)
    have hstep : lookupRef ((n, c) :: hp) a = lookupRef hp a := by
      rw [lookupRef_cons, if_neg ha]
    have iht := ih (fun r hr => hL r (List.mem_cons_of_mem _ hr))
    rw [hgn] at iht
    simp only [List.map_cons, List.filterMap_cons]
    rw [hgn]
    by_cases hcond : (lookupRef hp a).map (·.conversationId) = some c.conversationId
    · rw [if_pos (by rw [hstep]; exact hcond), hgn, hcond, iht]
    · rw [if_neg (by rw [hstep]; exact hcond), hstep, iht]

/-- The clone-then-`updateList` pattern leaves the displayed conversation-id
sequence (hence the order) unchanged. -/
theorem recordIds_updateListVal (s : ListState) (c : Conversation)
    (ho : ∀ r ∈ s.order, r < s.nextRef) :
    recordIds (updateListVal s c) = recordIds s := by
  unfold recordIds updateListVal updateList allocClone convIdAt
  exact filterMap_update_key s.heap s.nextRef c s.order
    (fun r hr => Nat.ne_of_lt (ho r hr))

/-! ## Concrete fixtures for witnesses and counterexamples -/

/-- A sample opposing user. -/
def aliceUser : UserSnap :=
  { uid := "alice", status := "online", blockedByMe := false, hasBlockedMe := false }

/-- A sample text message from `alice` in the direct conversation with `me`. -/
def msg0 : Msg :=
  { id := 1, conversationId := "alice_user_me", senderUid := "alice", category := "message",
    receiverType := "user", parentMessageId := 0, willUpdateConversation := false,
    hasMetadata := false, metadataIncrementUnreadCount := false,
    readAt := none, deliveredAt := none, typing := none }

/-- The direct conversation between `me` and `alice`. -/
def conv0 : Conversation :=
  { conversationId := "alice_user_me", conversationType := "user",
    convWith := ConvWith.user aliceUser, lastMessage := some msg0, unreadCount := 0 }

/-- A list displaying only `conv0`, held at reference 0. -/
def s0 : ListState := { heap := [(0, conv0)], order := [0], nextRef := 1 }

/-- A follow-up message from `alice` in the same conversation. -/
def msg1 : Msg := { msg0 with id := 2 }

/-! ## Claim C1 -/

/-- Claim C1: for an incoming message whose conversation already exists in the
list, `updateLastMessage` replaces the conversation's last message with the
new message, increments the unread count by exactly 1 when the sender is not
the logged-in user and leaves it unchanged when the sender is the logged-in
user, and in both cases relocates the (cloned) record to index 0. -/
theorem claim1_updateLastMessage_existing (uid : String) (m : Msg) (dconv : Conversation)
    (d2 : Option Conversation) (s : ListState) (r : Ref) (c : Conversation)
    (hr : getListItem s dconv.conversationId = some r)
    (hc : lookupRef s.heap r = some c) :
    (updateLastMessage uid m (some dconv) d2 s).1.order.head? = some s.nextRef ∧
    lookupRef (updateLastMessage uid m (some dconv) d2 s).1.heap s.nextRef =
      some { c with lastMessage := some m,
                    unreadCount := c.unreadCount + (if m.senderUid = uid then 0 else 1) } := by
  by_cases hs : m.senderUid = uid
  · simp only [updateLastMessage, hr, hs, ne_eq, not_true_eq_false, if_false, if_true,
      ite_true, ite_false, mutateRef, lookupRef_mutate, if_pos rfl, hc, Option.map_some',
      allocClone, updateAndMoveToFirst, lookupRef_cons, List.head?_cons]
    simp [lookupRef_cons]
  · simp only [updateLastMessage, hr, hs, ne_eq, not_false_eq_true, if_true, if_false,
      ite_true, ite_false, mutateRef, lookupRef_mutate, if_pos rfl, hc, Option.map_some',
      allocClone, updateAndMoveToFirst, lookupRef_cons, List.head?_cons]
    simp [lookupRef_cons]

/-- Witness for C1 at concrete inputs: a second message from `alice` lands in
the displayed conversation `conv0`. -/
theorem claim1_witness :
    (updateLastMessage "me" msg1 (some conv0) none s0).1.order.head? = some s0.nextRef ∧
    lookupRef (updateLastMessage "me" msg1 (some conv0) none s0).1.heap s0.nextRef =
      some { conv0 with lastMessage := some msg1,
                        unreadCount := conv0.unreadCount
                          + (if msg1.senderUid = "me" then 0 else 1) } :=
  claim1_updateLastMessage_existing "me" msg1 conv0 none s0 0 conv0 (by decide) (by decide)

/-! ## Claim C2 -/

/-- A sample group snapshot. -/
def sampleGroup : GroupSnap := { guid := "g1", scope := some "participant" }

/-- The action message reporting a kick in group `g1`. -/
def kickMsg : Msg :=
  { id := 3, conversationId := "group_g1", senderUid := "admin", category := "action",
    receiverType := "group", parentMessageId := 0, willUpdateConversation := false,
    hasMetadata := false, metadataIncrementUnreadCount := false,
    readAt := none, deliveredAt := none, typing := none }

/-- A last message inside the group conversation. -/
def groupLastMsg : Msg :=
  { id := 5, conversationId := "group_g1", senderUid := "bob", category := "message",
    receiverType := "group", parentMessageId := 0, willUpdateConversation := false,
    hasMetadata := false, metadataIncrementUnreadCount := false,
    readAt := none, deliveredAt := none, typing := none }

/-- The group conversation with `g1`. -/
def convG : Conversation :=
  { conversationId := "group_g1", conversationType := "group",
    convWith := ConvWith.group sampleGroup, lastMessage := some groupLastMsg,
    unreadCount := 0 }

/-- A list displaying only the group conversation. -/
def sG : ListState := { heap := [(0, convG)], order := [0], nextRef := 1 }

/-- The details of `onGroupMemberKicked` when the kicked user is `me`. -/
def kickDetails : GroupActionDetails :=
  { action := some "kicked", actionOnUid := some "me", group := some sampleGroup,
    newScope := none, oldScope := none }

/-- Claim C2 counterexample: `me` is kicked from `g1` while `group_g1` is
selected.  The handler removes the conversation from the store (the
group-actions toggle is off, so removal is indeed unconditional) but the
selection still contains the removed conversation, contradicting the claimed
selection clean-up. -/
theorem claim2_counterexample :
    recordIds (groupEventStep "me" false kickMsg kickDetails none sG ["group_g1"]).1 = [] ∧
    (groupEventStep "me" false kickMsg kickDetails none sG ["group_g1"]).2 = ["group_g1"] := by
  decide

/-- Claim C2 amended: for a kicked/banned/left action whose acted-on subject
is the logged-in user and whose conversation is displayed, `groupHandler`
removes the conversation from the store unconditionally (regardless of the
group-actions toggle), but the selection is left untouched — this path never
calls `removeItemFromSelectionList`. -/
theorem claim2_amended (uid : String) (toggle : Bool) (message : Msg)
    (d : GroupActionDetails) (derive : Option Conversation) (s : ListState)
    (sel : List String) (r : Ref)
    (hr : getListItem s message.conversationId = some r)
    (hact : d.action = some "kicked" ∨ d.action = some "banned" ∨ d.action = some "left")
    (hon : d.actionOnUid = some uid) :
    groupEventStep uid toggle message d derive s sel
      = (removeItemFromList s message.conversationId, sel) ∧
    message.conversationId
      ∉ recordIds (groupEventStep uid toggle message d derive s sel).1 := by
  obtain ⟨-, c, hc, -⟩ := getListItem_spec s message.conversationId r hr
  have hmain : groupHandler uid toggle message d derive s
      = removeItemFromList s message.conversationId := by
    rcases hact with h | h | h <;>
      simp [groupHandler, hr, hc, groupHandlerExisting, h, hon]
  refine ⟨by simp [groupEventStep, hmain], ?_⟩
  simp only [groupEventStep, hmain]
  exact not_mem_recordIds_removeItemFromList s message.conversationId

/-- Witness for the amended C2 at concrete inputs. -/
theorem claim2_witness :
    groupEventStep "me" true kickMsg kickDetails none sG ["group_g1"]
      = (removeItemFromList sG kickMsg.conversationId, ["group_g1"]) ∧
    kickMsg.conversationId
      ∉ recordIds (groupEventStep "me" true kickMsg kickDetails none sG ["group_g1"]).1 :=
  claim2_amended "me" true kickMsg kickDetails none sG ["group_g1"] 0
    (by decide) (by decide) (by decide)

/-! ## Claim C3 -/

/-- The empty conversation list. -/
def sEmpty : ListState := { heap := [], order := [], nextRef := 0 }

/-- Claim C3 counterexample: the outer derivation of `updateLastMessage`
fails.  The store is left unchanged, but `onError` is not invoked (second
component `false`): the rejection only reaches `console.log` (third component
`true`), contradicting the claim that every derivation failure is surfaced to
`onError`. -/
theorem claim3_counterexample :
    updateLastMessage "me" msg1 none none s0 = (s0, false, true) := rfl

/-- Claim C3 amended: a failed derivation always leaves the store unchanged,
but only the insert-path derivation failure of `updateLastMessage` is
surfaced to `onError`; the outer `updateLastMessage` derivation failure is
only written to the console, and a `groupHandler` derivation failure is
surfaced nowhere (its promise chain has no rejection handler). -/
theorem claim3_amended (uid : String) (m : Msg) (s : ListState)
    (dconv : Conversation) (toggle : Bool) (d : GroupActionDetails) (gm : Msg) :
    updateLastMessage uid m none none s = (s, false, true) ∧
    (getListItem s dconv.conversationId = none →
      updateLastMessage uid m (some dconv) none s = (s, true, false)) ∧
    (getListItem s gm.conversationId = none →
      groupHandler uid toggle gm d none s = s) := by
  refine ⟨rfl, ?_, ?_⟩
  · intro h
    simp [updateLastMessage, h]
  · intro h
    simp [groupHandler, h]

/-- Witness for the amended C3 at concrete inputs (empty store, so every
lookup misses and both derivation sites are exercised). -/
theorem claim3_witness :
    updateLastMessage "me" msg1 none none sEmpty = (sEmpty, false, true) ∧
    updateLastMessage "me" msg1 (some conv0) none sEmpty = (sEmpty, true, false) ∧
    groupHandler "me" false kickMsg kickDetails none sEmpty = sEmpty :=
  ⟨(claim3_amended "me" msg1 sEmpty conv0 false kickDetails kickMsg).1,
   (claim3_amended "me" msg1 sEmpty conv0 false kickDetails kickMsg).2.1 (by decide),
   (claim3_amended "me" msg1 sEmpty conv0 false kickDetails kickMsg).2.2 (by decide)⟩

/-! ## Claim C4 -/

/-- A successful dereference exhibits the heap entry. -/
theorem lookupRef_mem (h : List (Ref × Conversation)) (r : Ref) (c : Conversation)
    (hl : lookupRef h r = some c) : (r, c) ∈ h := by
  induction h with
  | nil => simp [lookupRef] at hl
  | cons p t ih =>
    obtain ⟨n, v⟩ := p
    rw [lookupRef_cons] at hl
    by_cases hr : r = n
    · subst hr
      rw [if_pos rfl] at hl
      cases hl
      exact List.mem_cons_self _ _
    · rw [if_neg hr] at hl
      exact List.mem_cons_of_mem _ (ih hl)

/-- Claim C4 counterexample: after `updateLastMessage` processes `msg1`, the
record object that `getListItem` returned (reference 0, displaying `conv0`)
no longer holds its original value: the handler mutated the displayed object
in place before the store write. -/
theorem claim4_counterexample :
    lookupRef (updateLastMessage "me" msg1 (some conv0) none s0).1.heap 0 ≠ some conv0 := by
  decide

/-- Claim C4 amended: the new-message handler, the group-action handler and
the call-event unread-count incrementer each call mutating setters on the
record object obtained from the store lookup (the new-message handler clones
it only for the final write, and `updateUnreadMessageCount` even returns the
store's own object); the copy-on-write discipline does not hold for these
three handlers. -/
theorem claim4_amended :
    (∀ (uid : String) (m : Msg) (dconv : Conversation) (d2 : Option Conversation)
        (s : ListState) (r : Ref) (c : Conversation),
      getListItem s dconv.conversationId = some r →
      lookupRef s.heap r = some c →
      (∀ p ∈ s.heap, p.1 < s.nextRef) →
      lookupRef (updateLastMessage uid m (some dconv) d2 s).1.heap r =
        some { c with lastMessage := some m,
                      unreadCount := c.unreadCount + (if m.senderUid = uid then 0 else 1) }) ∧
    (∀ (uid : String) (message : Msg) (s : ListState) (r : Ref) (c : Conversation),
      getListItem s message.conversationId = some r →
      lookupRef s.heap r = some c →
      lookupRef (groupHandler uid true message emptyDetails none s).heap r =
        some { c with lastMessage := some message }) ∧
    (∀ (conversation : Conversation) (s : ListState) (r : Ref) (c : Conversation),
      getListItem s conversation.conversationId = some r →
      lookupRef s.heap r = some c →
      (updateUnreadMessageCount conversation s).2 = Sum.inl r ∧
      lookupRef (updateUnreadMessageCount conversation s).1.heap r =
        some { c with unreadCount := c.unreadCount + 1 }) := by
  refine ⟨?_, ?_, ?_⟩
  · intro uid m dconv d2 s r c hr hc hfresh
    have hlt : r < s.nextRef := hfresh (r, c) (lookupRef_mem s.heap r c hc)
    have hrn : ¬ r = s.nextRef := Nat.ne_of_lt hlt
    by_cases hs : m.senderUid = uid
    · simp only [updateLastMessage, hr, hs, ne_eq, not_true_eq_false, if_false, if_true,
        ite_true, ite_false, mutateRef, lookupRef_mutate, if_pos rfl, hc, Option.map_some',
        allocClone, updateAndMoveToFirst, lookupRef_cons, hrn]
      simp [lookupRef_cons, hrn, lookupRef_mutate, hc, hs]
    · simp only [updateLastMessage, hr, hs, ne_eq, not_false_eq_true, if_true, if_false,
        ite_true, ite_false, mutateRef, lookupRef_mutate, if_pos rfl, hc, Option.map_some',
        allocClone, updateAndMoveToFirst, lookupRef_cons, hrn]
  · intro uid message s r c hr hc
    simp [groupHandler, hr, hc, groupHandlerExisting, emptyDetails, updateList, mutateRef,
      lookupRef_mutate, hc]
  · intro conversation s r c hr hc
    refine ⟨by simp [updateUnreadMessageCount, hr], ?_⟩
    simp [updateUnreadMessageCount, hr, mutateRef, lookupRef_mutate, hc]

/-- Witness for the amended C4 at concrete inputs. -/
theorem claim4_witness :
    lookupRef (updateLastMessage "me" msg1 (some conv0) none s0).1.heap 0 =
      some { conv0 with lastMessage := some msg1,
                        unreadCount := conv0.unreadCount
                          + (if msg1.senderUid = "me" then 0 else 1) } ∧
    lookupRef (groupHandler "me" true kickMsg emptyDetails none sG).heap 0 =
      some { convG with lastMessage := some kickMsg } ∧
    (updateUnreadMessageCount conv0 s0).2 = Sum.inl 0 ∧
    lookupRef (updateUnreadMessageCount conv0 s0).1.heap 0 =
      some { conv0 with unreadCount := conv0.unreadCount + 1 } :=
  ⟨claim4_amended.1 "me" msg1 conv0 none s0 0 conv0 (by decide) (by decide) (by decide),
   claim4_amended.2.1 "me" kickMsg sG 0 convG (by decide) (by decide),
   (claim4_amended.2.2 conv0 s0 0 conv0 (by decide) (by decide)).1,
   (claim4_amended.2.2 conv0 s0 0 conv0 (by decide) (by decide)).2⟩

/-! ## Claim C5 -/

/-- Claim C5 (code bug): a presence event for a user with no conversation in
the store is not a silent no-op: `userEventHandler` reads
`item.getConversationWith()` before its `if (item)` guard, so the event
throws a `TypeError` instead of being ignored. -/
theorem claim5_userEventHandler_throws :
    userEventHandler "me"
      { uid := "u9", status := "online", blockedByMe := false, hasBlockedMe := false }
      sEmpty = Except.error "TypeError" := rfl

/-! ## Claim C6 -/

/-- Update settings with only the group-actions toggle off. -/
def settingsNoGroup : UpdateSettings :=
  { shouldUpdateOnMessageReplies := true, shouldUpdateOnCustomMessages := true,
    shouldUpdateOnGroupActions := false, shouldUpdateOnCallActivities := true }

/-- An action-category message addressed to a user receiver. -/
def userActionMsg : Msg :=
  { id := 7, conversationId := "alice_user_me", senderUid := "alice", category := "action",
    receiverType := "user", parentMessageId := 0, willUpdateConversation := false,
    hasMetadata := false, metadataIncrementUnreadCount := false,
    readAt := none, deliveredAt := none, typing := none }

/-- An action-category message addressed to a group receiver. -/
def groupActionMsg : Msg :=
  { id := 8, conversationId := "group_g1", senderUid := "admin", category := "action",
    receiverType := "group", parentMessageId := 0, willUpdateConversation := false,
    hasMetadata := false, metadataIncrementUnreadCount := false,
    readAt := none, deliveredAt := none, typing := none }

/-- Claim C6 counterexample: with the group-actions toggle off, an
action-category event whose receiver type is `user` is accepted by the
predicate — the result does not equal the toggle, so the receiver type does
influence the result. -/
theorem claim6_counterexample :
    shouldUpdateLastMessageAndUnreadCount settingsNoGroup userActionMsg = true ∧
    settingsNoGroup.shouldUpdateOnGroupActions = false := by
  decide

/-- Claim C6 amended: for an action-category event the predicate returns
exactly the group-actions toggle only when the receiver type is `group` and
the thread-reply gate does not fire first (no parent message id, or the
replies toggle on); an action-category event with a `user` receiver type
falls through to acceptance regardless of the toggle. -/
theorem claim6_amended (settings : UpdateSettings) (m : Msg)
    (hcat : m.category = "action") (hrec : m.receiverType = "group")
    (hrep : m.parentMessageId = 0 ∨ settings.shouldUpdateOnMessageReplies = true) :
    shouldUpdateLastMessageAndUnreadCount settings m
      = settings.shouldUpdateOnGroupActions := by
  rcases hrep with h | h <;>
    simp [shouldUpdateLastMessageAndUnreadCount, hcat, hrec, h]

/-- Witness for the amended C6 at concrete inputs. -/
theorem claim6_witness :
    shouldUpdateLastMessageAndUnreadCount settingsNoGroup groupActionMsg
      = settingsNoGroup.shouldUpdateOnGroupActions :=
  claim6_amended settingsNoGroup groupActionMsg (by decide) (by decide)
    (Or.inl (by decide))

/-! ## Claim C7 -/

/-- A read-by-all receipt for the group's last message. -/
def readAllReceipt : Receipt :=
  { senderUid := "bob", receiver := "g1", receiverType := "group",
    receiptType := "READ_BY_ALL", messageId := 5, readAt := some 100,
    deliveredAt := some 90 }

/-- Claim C7 counterexample: the receipt resolves to the displayed group
conversation and its message id equals the last message's id, yet the handler
returns the store unchanged — the group conversation's last message was sent
by `bob`, not by the logged-in user, so the write with the read timestamp
claimed by C7 never happens. -/
theorem claim7_counterexample :
    resolveReceipt readAllReceipt sG = some 0 ∧
    convG.lastMessage = some groupLastMsg ∧
    groupLastMsg.id = readAllReceipt.messageId ∧
    groupLastMsg.readAt = none ∧
    updateMessageReceipt "me" readAllReceipt sG = Except.ok sG :=
  ⟨rfl, rfl, rfl, rfl, rfl⟩

/-- Claim C7 amended: for a receipt that resolves to a displayed conversation
whose last-message id matches — except group conversations whose last message
was not sent by the logged-in user, which are skipped — the handler writes
back a clone in which only the last message's `readAt`/`deliveredAt`
timestamps are set from the receipt, and the displayed id sequence (hence the
position of every conversation) is unchanged. -/
theorem claim7_amended (uid : String) (receipt : Receipt) (s : ListState)
    (r : Ref) (c : Conversation) (lm : Msg)
    (hres : resolveReceipt receipt s = some r)
    (hc : lookupRef s.heap r = some c)
    (hlm : c.lastMessage = some lm)
    (hid : lm.id = receipt.messageId)
    (hguard : c.conversationType = "group" → lm.senderUid = uid)
    (ho : ∀ x ∈ s.order, x < s.nextRef) :
    updateMessageReceipt uid receipt s =
      Except.ok (updateListVal s
        { c with lastMessage := some (applyReceiptTimestamps receipt lm) }) ∧
    recordIds (updateListVal s
        { c with lastMessage := some (applyReceiptTimestamps receipt lm) })
      = recordIds s := by
  refine ⟨?_, recordIds_updateListVal s _ ho⟩
  by_cases hg : c.conversationType = "group"
  · have hsend : lm.senderUid = uid := hguard hg
    simp [updateMessageReceipt, hres, hc, hg, hlm, hsend, hid]
  · simp [updateMessageReceipt, hres, hc, hg, hlm, hid]

/-- A read receipt for the last message of the direct conversation `conv0`. -/
def userReceipt : Receipt :=
  { senderUid := "me", receiver := "alice", receiverType := "user",
    receiptType := "READ", messageId := 1, readAt := some 100, deliveredAt := none }

/-- Witness for the amended C7 at concrete inputs. -/
theorem claim7_witness :
    updateMessageReceipt "me" userReceipt s0 =
      Except.ok (updateListVal s0
        { conv0 with lastMessage := some (applyReceiptTimestamps userReceipt msg0) }) ∧
    recordIds (updateListVal s0
        { conv0 with lastMessage := some (applyReceiptTimestamps userReceipt msg0) })
      = recordIds s0 :=
  claim7_amended "me" userReceipt s0 0 conv0 msg0 (by decide) (by decide) (by decide)
    (by decide) (by decide) (by decide)

/-! ## Claim C8 -/

/-- Erasing an element from a duplicate-free list removes it entirely. -/
theorem not_mem_erase_of_nodup (sel : List String) (id : String) (hnd : sel.Nodup) :
    id ∉ sel.erase id := by
  intro hmem
  have h1 : sel.count id ≤ 1 := List.nodup_iff_count_le_one.mp hnd id
  have h2 : 0 < (sel.erase id).count id := List.count_pos_iff.mpr hmem
  rw [List.count_erase_self] at h2
  omega

/-- Claim C8: the delete flow is atomic on failure and complete on success.
When `deleteConversation` succeeds the conversation is removed from the store
and from the selection and the deletion notification is emitted; when it
fails, store and selection are unchanged and no notification is emitted.
`hsel` is the component invariant that the selection is empty unless
selection mode is active, and `hnd` that the selection has no duplicates. -/
theorem claim8_removeConversation (b selecting : Bool) (id : String) (s : ListState)
    (sel : List String) (r : Ref)
    (hpresent : getListItem s id = some r)
    (hnd : sel.Nodup)
    (hsel : selecting = false → sel = []) :
    (b = true →
      removeConversation b selecting id s sel
        = Except.ok (removeItemFromList s id,
            removeItemFromSelectionList selecting sel id, true) ∧
      id ∉ recordIds (removeItemFromList s id) ∧
      id ∉ removeItemFromSelectionList selecting sel id) ∧
    (b = false → removeConversation b selecting id s sel = Except.ok (s, sel, false)) := by
  constructor
  · intro hb
    subst hb
    refine ⟨by simp [removeConversation, hpresent],
      not_mem_recordIds_removeItemFromList s id, ?_⟩
    unfold removeItemFromSelectionList
    cases hsl : selecting with
    | false =>
      rw [hsel hsl]
      simp
    | true =>
      simp only [if_true, ite_true]
      exact not_mem_erase_of_nodup sel id hnd
  · intro hb
    subst hb
    simp [removeConversation, hpresent]

/-- Witness for C8 at concrete inputs: deleting `conv0` while it is the only
selected conversation, for both outcomes of the external delete command. -/
theorem claim8_witness :
    (removeConversation true true "alice_user_me" s0 ["alice_user_me"]
        = Except.ok (removeItemFromList s0 "alice_user_me",
            removeItemFromSelectionList true ["alice_user_me"] "alice_user_me", true) ∧
      "alice_user_me" ∉ recordIds (removeItemFromList s0 "alice_user_me") ∧
      "alice_user_me" ∉ removeItemFromSelectionList true ["alice_user_me"] "alice_user_me") ∧
    removeConversation false true "alice_user_me" s0 ["alice_user_me"]
        = Except.ok (s0, ["alice_user_me"], false) :=
  ⟨(claim8_removeConversation true true "alice_user_me" s0 ["alice_user_me"] 0
      (by decide) (by decide) (by intro h; cases h)).1 rfl,
   (claim8_removeConversation false true "alice_user_me" s0 ["alice_user_me"] 0
      (by decide) (by decide) (by intro h; cases h)).2 rfl⟩

/-! ## Claim C9 -/

/-- A mounted component with all eight listener registrations and a pending
member-added debounce timer (handle 42). -/
def mountedTimerState : ComponentState :=
  onMemberAddedToGroupDebounce 42
    (mountRegistrations
      { sdkUserListener := false, sdkCallListener := false, sdkGroupListener := false,
        uiConversationListener := false, uiMessageListener := false,
        uiGroupListener := false, uiUserListener := false, uiCallListener := false,
        memberAddedDebounceTimer := none })

/-- Claim C9 (code bug): the teardown cleanup leaves the UI call-event
listener registered and leaves the pending member-added debounce timer
uncancelled, so debounced group-action work scheduled before unmount can
still run after unmount. -/
theorem claim9_teardown_incomplete :
    (teardownCleanup mountedTimerState).uiCallListener = true ∧
    (teardownCleanup mountedTimerState).memberAddedDebounceTimer = some 42 ∧
    (teardownCleanup mountedTimerState).sdkUserListener = false ∧
    (teardownCleanup mountedTimerState).sdkCallListener = false ∧
    (teardownCleanup mountedTimerState).sdkGroupListener = false ∧
    (teardownCleanup mountedTimerState).uiConversationListener = false ∧
    (teardownCleanup mountedTimerState).uiMessageListener = false ∧
    (teardownCleanup mountedTimerState).uiGroupListener = false ∧
    (teardownCleanup mountedTimerState).uiUserListener = false := by
  decide

/-! ## Claim C10 -/

/-- Claim C10: the typing-started handler is not idempotent.  When the
matched conversation's ephemeral typing annotation is already set, a further
typing-started event deletes the annotation (the set branch requires it to be
absent and every other case deletes it); consequently applying the handler's
record transformation twice from an annotation-free record leaves the record
annotation-free. -/
theorem claim10_typing_toggle :
    (∀ (ti : TypingIndicator) (s : ListState) (r : Ref) (c : Conversation)
        (lm : Msg) (t : String),
      getConversationRefFromTypingIndicator ti s = some r →
      lookupRef s.heap r = some c →
      c.lastMessage = some lm →
      lm.typing = some t →
      typingEventHandler ti true s =
        Except.ok (updateListVal s
          { c with lastMessage := some { lm with typing := none } })) ∧
    (∀ (ti : TypingIndicator) (c : Conversation) (lm : Msg),
      c.lastMessage = some lm →
      lm.typing = none →
      (applyTypingToConversation ti true c).bind (applyTypingToConversation ti true)
        = Except.ok { c with lastMessage := some { lm with typing := none } }) := by
  constructor
  · intro ti s r c lm t hf hc hlm ht
    simp [typingEventHandler, hf, hc, applyTypingToConversation, hlm, ht]
  · intro ti c lm hlm ht
    simp [applyTypingToConversation, hlm, ht, Except.bind]

/-- The conversation `conv0` with its typing annotation set. -/
def typingMsg : Msg := { msg0 with typing := some "is typing" }

/-- The record `conv0` whose last message carries the typing annotation. -/
def convT : Conversation := { conv0 with lastMessage := some typingMsg }

/-- A list displaying only the annotated conversation. -/
def sT : ListState := { heap := [(0, convT)], order := [0], nextRef := 1 }

/-- The typing indicator from `alice` in the direct conversation. -/
def ti0 : TypingIndicator :=
  { senderUid := "alice", senderName := "Alice", receiverId := "me",
    receiverType := "user" }

/-- Witness for C10 at concrete inputs. -/
theorem claim10_witness :
    typingEventHandler ti0 true sT =
      Except.ok (updateListVal sT
        { convT with lastMessage := some { typingMsg with typing := none } }) ∧
    (applyTypingToConversation ti0 true conv0).bind (applyTypingToConversation ti0 true)
      = Except.ok { conv0 with lastMessage := some { msg0 with typing := none } } :=
  ⟨claim10_typing_toggle.1 ti0 sT 0 convT typingMsg "is typing"
      (by decide) (by decide) rfl rfl,
   claim10_typing_toggle.2 ti0 conv0 msg0 rfl rfl⟩

end CometChatConversations
